import Mathlib

/-!
A shallow embedding of the virtio-snd control-plane device model
(`hw/virtio/virtio-snd.c` and `include/hw/virtio/virtio-snd.h`), together
with theorems settling the specification claims about it.

Machine integers are modelled as `Nat` (all values involved stay far below
2^32, and no arithmetic in the embedded code can overflow 32 bits).
Heap accesses through the per-stream tables are modelled fallibly: an
out-of-bounds array index or a NULL-pointer dereference, which is undefined
behaviour in the C source, surfaces as an `Except.error Fault` value.
-/

/-- A memory fault: the modelled C program performed an access that is
undefined behaviour (out-of-bounds array read/write, NULL dereference, or a
`g_assert_not_reached` abort). -/
inductive Fault where
  | oobRead
  | oobWrite
  | nullDeref
  | assertFail
deriving Repr, DecidableEq

/-- Computations over device state that can fault. -/
abbrev M (α : Type) : Type := Except Fault α

/-- C array read `xs[i]` on an array of length `xs.length`:
out of bounds is a fault. -/
def listGetF {α : Type} (xs : List α) (i : Nat) : M α :=
  if h : i < xs.length then .ok xs[i] else .error Fault.oobRead

/-- C array write `xs[i] = a`: out of bounds is a fault. -/
def listSetF {α : Type} (xs : List α) (i : Nat) (a : α) : M (List α) :=
  if i < xs.length then .ok (xs.set i a) else .error Fault.oobWrite

/-- C in-place update `f(&xs[i])`: out of bounds is a fault. -/
def listModifyF {α : Type} (xs : List α) (i : Nat) (f : α → α) : M (List α) :=
  if h : i < xs.length then .ok (xs.set i (f xs[i])) else .error Fault.oobWrite

/-! ### Wire constants

Request, status, format, rate, direction and channel-position codes come
from `standard-headers/linux/virtio_snd.h` (included by the repository
header but itself not part of this repository); the values are those of the
virtio 1.2 sound specification. -/

def VIRTIO_SND_R_JACK_INFO : Nat := 1
def VIRTIO_SND_R_JACK_REMAP : Nat := 2
def VIRTIO_SND_R_PCM_INFO : Nat := 0x0100
def VIRTIO_SND_R_PCM_SET_PARAMS : Nat := 0x0101
def VIRTIO_SND_R_PCM_PREPARE : Nat := 0x0102
def VIRTIO_SND_R_PCM_RELEASE : Nat := 0x0103
def VIRTIO_SND_R_PCM_START : Nat := 0x0104
def VIRTIO_SND_R_PCM_STOP : Nat := 0x0105
def VIRTIO_SND_R_CHMAP_INFO : Nat := 0x0200

def VIRTIO_SND_S_OK : Nat := 0x8000
def VIRTIO_SND_S_BAD_MSG : Nat := 0x8001
def VIRTIO_SND_S_NOT_SUPP : Nat := 0x8002

def VIRTIO_SND_PCM_FMT_S8 : Nat := 3
def VIRTIO_SND_PCM_FMT_U8 : Nat := 4
def VIRTIO_SND_PCM_FMT_S16 : Nat := 5
def VIRTIO_SND_PCM_FMT_U16 : Nat := 6
def VIRTIO_SND_PCM_FMT_S32 : Nat := 17
def VIRTIO_SND_PCM_FMT_U32 : Nat := 18
def VIRTIO_SND_PCM_FMT_FLOAT : Nat := 19

def VIRTIO_SND_PCM_RATE_5512 : Nat := 0
def VIRTIO_SND_PCM_RATE_8000 : Nat := 1
def VIRTIO_SND_PCM_RATE_11025 : Nat := 2
def VIRTIO_SND_PCM_RATE_16000 : Nat := 3
def VIRTIO_SND_PCM_RATE_22050 : Nat := 4
def VIRTIO_SND_PCM_RATE_32000 : Nat := 5
def VIRTIO_SND_PCM_RATE_44100 : Nat := 6
def VIRTIO_SND_PCM_RATE_48000 : Nat := 7
def VIRTIO_SND_PCM_RATE_64000 : Nat := 8
def VIRTIO_SND_PCM_RATE_88200 : Nat := 9
def VIRTIO_SND_PCM_RATE_96000 : Nat := 10
def VIRTIO_SND_PCM_RATE_176400 : Nat := 11
def VIRTIO_SND_PCM_RATE_192000 : Nat := 12
def VIRTIO_SND_PCM_RATE_384000 : Nat := 13

def VIRTIO_SND_D_OUTPUT : Nat := 0
def VIRTIO_SND_D_INPUT : Nat := 1

def VIRTIO_SND_CHMAP_FL : Nat := 3
def VIRTIO_SND_CHMAP_FR : Nat := 4
def VIRTIO_SND_CHMAP_MAX_SIZE : Nat := 18

/-- `AUDIO_MAX_CHANNELS` from QEMU's `audio/audio.h` (not part of this
repository). -/
def AUDIO_MAX_CHANNELS : Nat := 16

/-- QAPI `AudioFormat` enumeration values from QEMU (not part of this
repository), targets of `virtio_snd_get_qemu_format`. -/
def AUDIO_FORMAT_U8 : Nat := 0
def AUDIO_FORMAT_S8 : Nat := 1
def AUDIO_FORMAT_U16 : Nat := 2
def AUDIO_FORMAT_S16 : Nat := 3
def AUDIO_FORMAT_U32 : Nat := 4
def AUDIO_FORMAT_S32 : Nat := 5
def AUDIO_FORMAT_F32 : Nat := 6
def AUDIO_HOST_ENDIANNESS : Nat := 0

def VIRTIO_SOUND_HDA_FN_NID : Nat := 0

/-- `supported_formats` bitmask from virtio-snd.c. -/
def supported_formats : Nat :=
  2 ^ VIRTIO_SND_PCM_FMT_S8 + 2 ^ VIRTIO_SND_PCM_FMT_U8 +
  2 ^ VIRTIO_SND_PCM_FMT_S16 + 2 ^ VIRTIO_SND_PCM_FMT_U16 +
  2 ^ VIRTIO_SND_PCM_FMT_S32 + 2 ^ VIRTIO_SND_PCM_FMT_U32 +
  2 ^ VIRTIO_SND_PCM_FMT_FLOAT

/-- `supported_rates` bitmask from virtio-snd.c. -/
def supported_rates : Nat :=
  2 ^ VIRTIO_SND_PCM_RATE_5512 + 2 ^ VIRTIO_SND_PCM_RATE_8000 +
  2 ^ VIRTIO_SND_PCM_RATE_11025 + 2 ^ VIRTIO_SND_PCM_RATE_16000 +
  2 ^ VIRTIO_SND_PCM_RATE_22050 + 2 ^ VIRTIO_SND_PCM_RATE_32000 +
  2 ^ VIRTIO_SND_PCM_RATE_44100 + 2 ^ VIRTIO_SND_PCM_RATE_48000 +
  2 ^ VIRTIO_SND_PCM_RATE_64000 + 2 ^ VIRTIO_SND_PCM_RATE_88200 +
  2 ^ VIRTIO_SND_PCM_RATE_96000 + 2 ^ VIRTIO_SND_PCM_RATE_176400 +
  2 ^ VIRTIO_SND_PCM_RATE_192000 + 2 ^ VIRTIO_SND_PCM_RATE_384000

/-! ### Wire-record sizes (bytes), from the standard virtio-snd headers -/

def SIZEOF_VIRTIO_SND_HDR : Nat := 4
def SIZEOF_VIRTIO_SND_PCM_HDR : Nat := 8
def SIZEOF_VIRTIO_SND_QUERY_INFO : Nat := 16
def SIZEOF_VIRTIO_SND_PCM_SET_PARAMS : Nat := 24
def SIZEOF_VIRTIO_SND_PCM_INFO : Nat := 32

/-! ### Data model -/

/-- `struct VirtIOSoundPCMParams` from virtio-snd.h. -/
structure VirtIOSoundPCMParams where
  features : Nat
  buffer_bytes : Nat
  period_bytes : Nat
  channels : Nat
  format : Nat
  rate : Nat
deriving Repr, DecidableEq, Inhabited

/-- A `g_new0`-allocated, zero-filled `VirtIOSoundPCMParams`. -/
def paramsZero : VirtIOSoundPCMParams :=
  { features := 0, buffer_bytes := 0, period_bytes := 0,
    channels := 0, format := 0, rate := 0 }

/-- `struct audsettings` from QEMU's audio subsystem, as filled in by
`virtio_snd_get_qemu_audsettings`. -/
structure audsettings where
  freq : Nat
  nchannels : Nat
  fmt : Nat
  endianness : Nat
deriving Repr, DecidableEq, Inhabited

/-- `struct VirtIOSoundPCMStream` from virtio-snd.h (the fields assigned by
`virtio_snd_pcm_prepare_impl`; host-runtime handles — mutexes, the host
voice union and the block queue — are omitted, as is the always-identical
`desired_as` copy of `as`). -/
structure VirtIOSoundPCMStream where
  id : Nat
  hda_fn_nid : Nat
  features : Nat
  channels_min : Nat
  channels_max : Nat
  formats : Nat
  rates : Nat
  direction : Nat
  buffer_bytes : Nat
  period_bytes : Nat
  positions0 : Nat
  positions1 : Nat
  as : audsettings
deriving Repr, DecidableEq, Inhabited

/-- `struct virtio_snd_config`: the `{jacks, streams, chmaps}` device
configuration block. -/
structure virtio_snd_config where
  jacks : Nat
  streams : Nat
  chmaps : Nat
deriving Repr, DecidableEq, Inhabited

/-- `struct VirtIOSoundPCM`: the two per-stream tables.  Each table pointer
may be NULL (`none`); a present table is a list of possibly-NULL entries.
(The write-only `jacks` array, never read by any handler, is omitted.) -/
structure VirtIOSoundPCM where
  pcm_params : Option (List (Option VirtIOSoundPCMParams))
  streams : Option (List (Option VirtIOSoundPCMStream))
deriving Repr, DecidableEq, Inhabited

/-- Decoded view of the driver-readable (out) buffers of one control
request.  Each field models the corresponding wire field at its fixed
offset; a handler may read a field only when `out_len` covers the full
record containing it. -/
structure OutBuf where
  code : Nat
  stream_id : Nat
  buffer_bytes : Nat
  period_bytes : Nat
  features : Nat
  channels : Nat
  format : Nat
  rate : Nat
  start_id : Nat
  count : Nat
  size : Nat
deriving Repr, DecidableEq, Inhabited

/-- `struct VirtQueueElement`, reduced to what the control path observes:
an identifying transport handle, the byte counts of the out
(driver-written) and in (device-written) scatter-gather buffers, and the
decoded out-buffer contents. -/
structure VirtQueueElement where
  elem_id : Nat
  out_len : Nat
  in_len : Nat
  out : OutBuf
deriving Repr, DecidableEq, Inhabited

/-- `struct virtio_snd_ctrl_command` (the `vq` back-pointer and intrusive
list link are implicit in the model). -/
structure virtio_snd_ctrl_command where
  elem : VirtQueueElement
  resp_code : Nat
deriving Repr, DecidableEq, Inhabited

/-- `struct VirtIOSound`: device configuration, PCM tables, and the control
command queue with its re-entrancy flag. -/
structure VirtIOSound where
  snd_conf : virtio_snd_config
  pcm : VirtIOSoundPCM
  cmdq : List virtio_snd_ctrl_command
  processing_cmdq : Bool
deriving Repr, DecidableEq, Inhabited

/-- `struct virtio_snd_pcm_set_params` request payload. -/
structure virtio_snd_pcm_set_params where
  hdr_stream_id : Nat
  buffer_bytes : Nat
  period_bytes : Nat
  features : Nat
  channels : Nat
  format : Nat
  rate : Nat
deriving Repr, DecidableEq, Inhabited

/-- `struct virtio_snd_pcm_info` response record. -/
structure virtio_snd_pcm_info where
  hda_fn_nid : Nat
  features : Nat
  formats : Nat
  rates : Nat
  direction : Nat
  channels_min : Nat
  channels_max : Nat
  padding : Nat
deriving Repr, DecidableEq, Inhabited

/-- A `g_new0`-allocated, zero-filled `virtio_snd_pcm_info` record. -/
def pcmInfoZero : virtio_snd_pcm_info :=
  { hda_fn_nid := 0, features := 0, formats := 0, rates := 0,
    direction := 0, channels_min := 0, channels_max := 0, padding := 0 }

/-- One response returned to the transport by `virtqueue_push` +
`virtio_notify`: the element handle it answers, the status code written at
offset 0 of the in buffers, and (for PCM_INFO) the payload records written
after the header together with the number of payload bytes. -/
structure Delivery where
  elem_id : Nat
  code : Nat
  payload : List virtio_snd_pcm_info
  payload_bytes : Nat
deriving Repr, DecidableEq, Inhabited

/-! ### Operations -/

/-- `virtio_snd_pcm_get_stream`: NULL when the id is out of range or the
slot is empty; dereferences the `streams` table pointer. -/
def virtio_snd_pcm_get_stream (s : VirtIOSound) (stream_id : Nat) :
    M (Option VirtIOSoundPCMStream) :=
  if stream_id ≥ s.snd_conf.streams then pure none
  else
    match s.pcm.streams with
    | none => .error Fault.nullDeref
    | some strs => listGetF strs stream_id

/-- `virtio_snd_pcm_get_params`: NULL when the id is out of range or the
slot is empty; dereferences the `pcm_params` table pointer. -/
def virtio_snd_pcm_get_params (s : VirtIOSound) (stream_id : Nat) :
    M (Option VirtIOSoundPCMParams) :=
  if stream_id ≥ s.snd_conf.streams then pure none
  else
    match s.pcm.pcm_params with
    | none => .error Fault.nullDeref
    | some tbl => listGetF tbl stream_id

/-- Replace the device's `pcm_params` table. -/
def withParamsTbl (s : VirtIOSound) (tbl : List (Option VirtIOSoundPCMParams)) :
    VirtIOSound :=
  { s with pcm := { s.pcm with pcm_params := some tbl } }

/-- Replace the device's `streams` table. -/
def withStreamsTbl (s : VirtIOSound) (strs : List (Option VirtIOSoundPCMStream)) :
    VirtIOSound :=
  { s with pcm := { s.pcm with streams := some strs } }

/-- `virtio_snd_pcm_set_params_impl`.  Note two faithfully preserved
quirks of the source: the range guard is `stream_id > streams` (not `≥`),
so `stream_id = streams` passes the guard and indexes one past the end of
the table; and `features`, `buffer_bytes` and `period_bytes` are stored
into the table *before* channels/format/rate validation, so a
`NOT_SUPP` return leaves them already overwritten. -/
def virtio_snd_pcm_set_params_impl (s : VirtIOSound)
    (params : virtio_snd_pcm_set_params) : M (Nat × VirtIOSound) := do
  let stream_id := params.hdr_stream_id
  match s.pcm.pcm_params with
  | none => return (VIRTIO_SND_S_BAD_MSG, s)
  | some tbl0 =>
    if stream_id > s.snd_conf.streams then
      return (VIRTIO_SND_S_BAD_MSG, s)
    let cur ← listGetF tbl0 stream_id
    let tbl1 ← match cur with
      | none => listSetF tbl0 stream_id (some paramsZero)
      | some _ => pure tbl0
    let stOpt ← if stream_id ≥ s.snd_conf.streams then pure none
                else listGetF tbl1 stream_id
    match stOpt with
    | none => throw Fault.nullDeref
    | some st0 =>
      let st1 := { st0 with features := params.features,
                            buffer_bytes := params.buffer_bytes,
                            period_bytes := params.period_bytes }
      let tbl2 ← listSetF tbl1 stream_id (some st1)
      if params.channels < 1 ∨ params.channels > AUDIO_MAX_CHANNELS then
        return (VIRTIO_SND_S_NOT_SUPP, withParamsTbl s tbl2)
      let st2 := { st1 with channels := params.channels }
      let tbl3 ← listSetF tbl2 stream_id (some st2)
      if ¬ (supported_formats.testBit params.format) then
        return (VIRTIO_SND_S_NOT_SUPP, withParamsTbl s tbl3)
      let st3 := { st2 with format := params.format }
      let tbl4 ← listSetF tbl3 stream_id (some st3)
      if ¬ (supported_rates.testBit params.rate) then
        return (VIRTIO_SND_S_NOT_SUPP, withParamsTbl s tbl4)
      let st4 := { st3 with rate := params.rate,
                            period_bytes := params.period_bytes,
                            buffer_bytes := params.buffer_bytes }
      let tbl5 ← listSetF tbl4 stream_id (some st4)
      return (VIRTIO_SND_S_OK, withParamsTbl s tbl5)

/-- `virtio_snd_handle_pcm_set_params`: checks the request size, then
delegates to the impl. -/
def virtio_snd_handle_pcm_set_params (s : VirtIOSound)
    (cmd : virtio_snd_ctrl_command) : M (Nat × VirtIOSound) :=
  if cmd.elem.out_len < SIZEOF_VIRTIO_SND_PCM_SET_PARAMS then
    .ok (VIRTIO_SND_S_BAD_MSG, s)
  else
    virtio_snd_pcm_set_params_impl s
      { hdr_stream_id := cmd.elem.out.stream_id,
        buffer_bytes := cmd.elem.out.buffer_bytes,
        period_bytes := cmd.elem.out.period_bytes,
        features := cmd.elem.out.features,
        channels := cmd.elem.out.channels,
        format := cmd.elem.out.format,
        rate := cmd.elem.out.rate }

/-- `virtio_snd_get_qemu_format`: `g_assert_not_reached()` on a format
outside the enumerated set is modelled as a fault. -/
def virtio_snd_get_qemu_format (format : Nat) : M Nat :=
  if format = VIRTIO_SND_PCM_FMT_U8 then .ok AUDIO_FORMAT_U8
  else if format = VIRTIO_SND_PCM_FMT_S8 then .ok AUDIO_FORMAT_S8
  else if format = VIRTIO_SND_PCM_FMT_U16 then .ok AUDIO_FORMAT_U16
  else if format = VIRTIO_SND_PCM_FMT_S16 then .ok AUDIO_FORMAT_S16
  else if format = VIRTIO_SND_PCM_FMT_U32 then .ok AUDIO_FORMAT_U32
  else if format = VIRTIO_SND_PCM_FMT_S32 then .ok AUDIO_FORMAT_S32
  else if format = VIRTIO_SND_PCM_FMT_FLOAT then .ok AUDIO_FORMAT_F32
  else .error Fault.assertFail

/-- `virtio_snd_get_qemu_freq`: `g_assert_not_reached()` on a rate outside
the enumerated set is modelled as a fault. -/
def virtio_snd_get_qemu_freq (rate : Nat) : M Nat :=
  if rate = VIRTIO_SND_PCM_RATE_5512 then .ok 5512
  else if rate = VIRTIO_SND_PCM_RATE_8000 then .ok 8000
  else if rate = VIRTIO_SND_PCM_RATE_11025 then .ok 11025
  else if rate = VIRTIO_SND_PCM_RATE_16000 then .ok 16000
  else if rate = VIRTIO_SND_PCM_RATE_22050 then .ok 22050
  else if rate = VIRTIO_SND_PCM_RATE_32000 then .ok 32000
  else if rate = VIRTIO_SND_PCM_RATE_44100 then .ok 44100
  else if rate = VIRTIO_SND_PCM_RATE_48000 then .ok 48000
  else if rate = VIRTIO_SND_PCM_RATE_64000 then .ok 64000
  else if rate = VIRTIO_SND_PCM_RATE_88200 then .ok 88200
  else if rate = VIRTIO_SND_PCM_RATE_96000 then .ok 96000
  else if rate = VIRTIO_SND_PCM_RATE_176400 then .ok 176400
  else if rate = VIRTIO_SND_PCM_RATE_192000 then .ok 192000
  else if rate = VIRTIO_SND_PCM_RATE_384000 then .ok 384000
  else .error Fault.assertFail

/-- `virtio_snd_get_qemu_audsettings`. -/
def virtio_snd_get_qemu_audsettings (params : VirtIOSoundPCMParams) :
    M audsettings := do
  let fmt ← virtio_snd_get_qemu_format params.format
  let freq ← virtio_snd_get_qemu_freq params.rate
  return { nchannels := min AUDIO_MAX_CHANNELS params.channels,
           fmt := fmt, freq := freq,
           endianness := AUDIO_HOST_ENDIANNESS }

/-- `virtio_snd_pcm_prepare_impl`.  The guard dereferences
`pcm_params[stream_id]` without a bounds check, so `stream_id` at or past
the table length is an out-of-bounds access. -/
def virtio_snd_pcm_prepare_impl (s : VirtIOSound) (stream_id : Nat) :
    M (Nat × VirtIOSound) := do
  match s.pcm.streams, s.pcm.pcm_params with
  | none, _ => return (VIRTIO_SND_S_BAD_MSG, s)
  | some _, none => return (VIRTIO_SND_S_BAD_MSG, s)
  | some strs, some tbl =>
    let entry ← listGetF tbl stream_id
    if entry.isNone then
      return (VIRTIO_SND_S_BAD_MSG, s)
    let paramsOpt ← virtio_snd_pcm_get_params s stream_id
    match paramsOpt with
    | none => return (VIRTIO_SND_S_BAD_MSG, s)
    | some params =>
      let as ← virtio_snd_get_qemu_audsettings params
      let _old ← listGetF strs stream_id
      let stream : VirtIOSoundPCMStream :=
        { id := stream_id,
          direction :=
            if stream_id <
                s.snd_conf.streams / 2 + s.snd_conf.streams % 2 then
              VIRTIO_SND_D_OUTPUT
            else VIRTIO_SND_D_INPUT,
          hda_fn_nid := VIRTIO_SOUND_HDA_FN_NID,
          features := 0,
          channels_min := 1,
          channels_max := as.nchannels,
          formats := supported_formats,
          rates := supported_rates,
          buffer_bytes := params.buffer_bytes,
          period_bytes := params.period_bytes,
          positions0 := VIRTIO_SND_CHMAP_FL,
          positions1 := VIRTIO_SND_CHMAP_FR,
          as := as }
      let strs2 ← listSetF strs stream_id (some stream)
      return (VIRTIO_SND_S_OK, withStreamsTbl s strs2)

/-- `virtio_snd_handle_pcm_prepare`: reads the stream id at offset
`sizeof(virtio_snd_hdr)`; the read yields 4 bytes exactly when the out
buffers hold at least 8 bytes. -/
def virtio_snd_handle_pcm_prepare (s : VirtIOSound)
    (cmd : virtio_snd_ctrl_command) : M (Nat × VirtIOSound) :=
  if cmd.elem.out_len < SIZEOF_VIRTIO_SND_HDR + 4 then
    .ok (VIRTIO_SND_S_BAD_MSG, s)
  else
    virtio_snd_pcm_prepare_impl s cmd.elem.out.stream_id

/-- `virtio_snd_handle_pcm_start_stop`: reads a `virtio_snd_pcm_hdr`,
looks the stream up, and reports OK or BAD_MSG; the device state is never
modified.  The `start` flag only selects the trace message. -/
def virtio_snd_handle_pcm_start_stop (s : VirtIOSound)
    (cmd : virtio_snd_ctrl_command) (_start : Bool) :
    M (Nat × VirtIOSound) := do
  if cmd.elem.out_len < SIZEOF_VIRTIO_SND_PCM_HDR then
    return (VIRTIO_SND_S_BAD_MSG, s)
  let streamOpt ← virtio_snd_pcm_get_stream s cmd.elem.out.stream_id
  match streamOpt with
  | none => return (VIRTIO_SND_S_BAD_MSG, s)
  | some _ => return (VIRTIO_SND_S_OK, s)

/-- `virtio_snd_handle_pcm_release`: reads the stream id at offset
`sizeof(virtio_snd_hdr)`, looks the stream up, and reports OK or BAD_MSG.
The stream table entry is never cleared. -/
def virtio_snd_handle_pcm_release (s : VirtIOSound)
    (cmd : virtio_snd_ctrl_command) : M (Nat × VirtIOSound) := do
  if cmd.elem.out_len < SIZEOF_VIRTIO_SND_HDR + 4 then
    return (VIRTIO_SND_S_BAD_MSG, s)
  let streamOpt ← virtio_snd_pcm_get_stream s cmd.elem.out.stream_id
  match streamOpt with
  | none => return (VIRTIO_SND_S_BAD_MSG, s)
  | some _ => return (VIRTIO_SND_S_OK, s)

/-- The loop body of `virtio_snd_handle_pcm_info`, iterating `i` over
`[start_id, start_id + count)` with `fuel` iterations left.  Returns
`none` when a referenced stream does not exist (the early BAD_MSG exit).
The source fills `pcm_info[i - start_id]` but then zeroes
`pcm_info[i].padding` — an absolute index that is out of bounds as soon as
`i ≥ count`. -/
def virtio_snd_pcm_info_loop (s : VirtIOSound)
    (arr : List virtio_snd_pcm_info) (start_id : Nat) (i fuel : Nat) :
    M (Option (List virtio_snd_pcm_info)) := do
  match fuel with
  | 0 => return (some arr)
  | fuel' + 1 =>
    let streamOpt ← virtio_snd_pcm_get_stream s i
    match streamOpt with
    | none => return none
    | some stream =>
      let arr1 ← listModifyF arr (i - start_id) fun rec0 =>
        { rec0 with hda_fn_nid := stream.hda_fn_nid,
                    features := stream.features,
                    formats := stream.formats,
                    rates := stream.rates,
                    direction := stream.direction,
                    channels_min := stream.channels_min,
                    channels_max := stream.channels_max }
      let arr2 ← listModifyF arr1 i fun reci => { reci with padding := 0 }
      virtio_snd_pcm_info_loop s arr2 start_id (i + 1) fuel'

/-- `virtio_snd_handle_pcm_info`.  Returns the status code, the records
built in the `g_new0` scratch array, and the number of payload bytes
actually copied into the in buffers after the response header (the copy is
truncated to the in-buffer capacity).  Note the reply-size guard compares
against the *guest-supplied* `size` field, not the device's record size. -/
def virtio_snd_handle_pcm_info (s : VirtIOSound)
    (cmd : virtio_snd_ctrl_command) :
    M (Nat × List virtio_snd_pcm_info × Nat) := do
  if cmd.elem.out_len < SIZEOF_VIRTIO_SND_QUERY_INFO then
    return (VIRTIO_SND_S_BAD_MSG, [], 0)
  let req := cmd.elem.out
  if cmd.elem.in_len <
      SIZEOF_VIRTIO_SND_HDR + req.size * req.count then
    return (VIRTIO_SND_S_BAD_MSG, [], 0)
  let arr := List.replicate req.count pcmInfoZero
  let filled ← virtio_snd_pcm_info_loop s arr req.start_id req.start_id
      req.count
  match filled with
  | none => return (VIRTIO_SND_S_BAD_MSG, [], 0)
  | some arr' =>
    return (VIRTIO_SND_S_OK, arr',
      min (SIZEOF_VIRTIO_SND_PCM_INFO * req.count)
        (cmd.elem.in_len - SIZEOF_VIRTIO_SND_HDR))

/-- The `switch (cmd->ctrl.code)` dispatch body of `process_cmd`: yields
the response code, the PCM_INFO payload (empty for every other code), and
the updated device state. -/
def virtio_snd_dispatch (s : VirtIOSound) (cmd : virtio_snd_ctrl_command) :
    M ((Nat × List virtio_snd_pcm_info × Nat) × VirtIOSound) := do
  let code := cmd.elem.out.code
  if code = VIRTIO_SND_R_JACK_INFO ∨ code = VIRTIO_SND_R_JACK_REMAP then
    return ((VIRTIO_SND_S_NOT_SUPP, [], 0), s)
  else if code = VIRTIO_SND_R_PCM_INFO then
    let r ← virtio_snd_handle_pcm_info s cmd
    return (r, s)
  else if code = VIRTIO_SND_R_PCM_START then
    let (rc, s') ← virtio_snd_handle_pcm_start_stop s cmd true
    return ((rc, [], 0), s')
  else if code = VIRTIO_SND_R_PCM_STOP then
    let (rc, s') ← virtio_snd_handle_pcm_start_stop s cmd false
    return ((rc, [], 0), s')
  else if code = VIRTIO_SND_R_PCM_SET_PARAMS then
    let (rc, s') ← virtio_snd_handle_pcm_set_params s cmd
    return ((rc, [], 0), s')
  else if code = VIRTIO_SND_R_PCM_PREPARE then
    let (rc, s') ← virtio_snd_handle_pcm_prepare s cmd
    return ((rc, [], 0), s')
  else if code = VIRTIO_SND_R_PCM_RELEASE then
    let (rc, s') ← virtio_snd_handle_pcm_release s cmd
    return ((rc, [], 0), s')
  else if code = VIRTIO_SND_R_CHMAP_INFO then
    return ((VIRTIO_SND_S_NOT_SUPP, [], 0), s)
  else
    return ((VIRTIO_SND_S_BAD_MSG, [], 0), s)

/-- `process_cmd`: reads the 4-byte request header; on a short read it
logs and returns *without* writing a response or pushing the element
(`none` delivery).  Otherwise it dispatches, writes the response header
into the in buffers, and pushes the element back to the transport. -/
def process_cmd (s : VirtIOSound) (cmd : virtio_snd_ctrl_command) :
    M (VirtIOSound × Option Delivery) := do
  if cmd.elem.out_len < SIZEOF_VIRTIO_SND_HDR then
    return (s, none)
  let (rd, s') ← virtio_snd_dispatch s cmd
  return (s', some { elem_id := cmd.elem.elem_id, code := rd.1,
                     payload := rd.2.1, payload_bytes := rd.2.2 })

/-- The drain loop of `virtio_snd_process_cmdq`: process each queued
command head-first, accumulating the responses pushed to the transport in
order. -/
def process_cmdq_loop (s : VirtIOSound)
    (cmds : List virtio_snd_ctrl_command) :
    M (VirtIOSound × List Delivery) := do
  match cmds with
  | [] => return (s, [])
  | c :: rest =>
    let (s1, d) ← process_cmd s c
    let (s2, ds) ← process_cmdq_loop s1 rest
    return (s2, d.toList ++ ds)

/-- `virtio_snd_process_cmdq`: returns immediately if a drain is already
in progress; otherwise sets the flag, drains the queue, and clears the
flag. -/
def virtio_snd_process_cmdq (s : VirtIOSound) :
    M (VirtIOSound × List Delivery) := do
  if s.processing_cmdq then
    return (s, [])
  let s1 := { s with processing_cmdq := true }
  let (s2, ds) ← process_cmdq_loop s1 s1.cmdq
  return ({ s2 with cmdq := [], processing_cmdq := false }, ds)

/-- `virtio_snd_handle_ctrl`: pops every available element, appends a
command for each to the tail of `cmdq` in arrival order (initial response
code OK), then drains. -/
def virtio_snd_handle_ctrl (s : VirtIOSound)
    (elems : List VirtQueueElement) : M (VirtIOSound × List Delivery) :=
  let cmds := elems.map fun e => { elem := e, resp_code := VIRTIO_SND_S_OK }
  virtio_snd_process_cmdq { s with cmdq := s.cmdq ++ cmds }

/-- `virtio_snd_get_config`: returns the `{jacks, streams, chmaps}` block
verbatim. -/
def virtio_snd_get_config (s : VirtIOSound) : virtio_snd_config :=
  s.snd_conf

/-- `virtio_snd_set_config`: overwrites the whole `{jacks, streams,
chmaps}` block verbatim, with no validation. -/
def virtio_snd_set_config (s : VirtIOSound) (config : virtio_snd_config) :
    VirtIOSound :=
  { s with snd_conf := config }

/-- `virtio_snd_set_pcm`: allocate the zeroed per-stream tables. -/
def virtio_snd_set_pcm (streams : Nat) : VirtIOSoundPCM :=
  { pcm_params := some (List.replicate streams none),
    streams := some (List.replicate streams none) }

/-- The fixed default parameters applied to every stream at realize time
(buffer 8192, period 4096, 2 channels, S16, 44100 Hz). -/
def default_params (i : Nat) : virtio_snd_pcm_set_params :=
  { hdr_stream_id := i, buffer_bytes := 8192, period_bytes := 4096,
    features := 0, channels := 2, format := VIRTIO_SND_PCM_FMT_S16,
    rate := VIRTIO_SND_PCM_RATE_44100 }

/-- The realize-time per-stream initialization loop (`for i in
[0, streams)`): default SET_PARAMS then PREPARE, aborting realization
(`none`) if either reports a status other than OK. -/
def virtio_snd_realize_loop (s : VirtIOSound) (i fuel : Nat) :
    M (Option VirtIOSound) := do
  match fuel with
  | 0 => return (some s)
  | fuel' + 1 =>
    let (status, s1) ← virtio_snd_pcm_set_params_impl s (default_params i)
    if status ≠ VIRTIO_SND_S_OK then
      return none
    let (status2, s2) ← virtio_snd_pcm_prepare_impl s1 i
    if status2 ≠ VIRTIO_SND_S_OK then
      return none
    virtio_snd_realize_loop s2 (i + 1) fuel'

/-- `virtio_snd_common_realize`: allocate the tables, validate the
configured counts (`jacks ≤ 8`, `streams ∈ [1,10]`, `chmaps ≤ 18`,
failing realization otherwise), then run the default-initialization loop.
`none` models `error_setg` + return (realization failure). -/
def virtio_snd_common_realize (jacks streams chmaps : Nat) :
    M (Option VirtIOSound) := do
  let s : VirtIOSound :=
    { snd_conf := { jacks := jacks, streams := streams, chmaps := chmaps },
      pcm := virtio_snd_set_pcm streams,
      cmdq := [], processing_cmdq := false }
  if jacks > 8 then
    return none
  if streams < 1 ∨ streams > 10 then
    return none
  if chmaps > VIRTIO_SND_CHMAP_MAX_SIZE then
    return none
  virtio_snd_realize_loop s 0 streams

deriving instance DecidableEq for Except

/-! ### Concrete devices and requests used to settle the claims -/

/-- The device state produced by a successful realization (arbitrary
default on the failure paths, which the accompanying theorems rule out). -/
def realizedState (jacks streams chmaps : Nat) : VirtIOSound :=
  match virtio_snd_common_realize jacks streams chmaps with
  | .ok (some s) => s
  | _ => default

/-- The `VirtIOSoundPCMParams` value stored by a default SET_PARAMS. -/
def defaultStoredParams : VirtIOSoundPCMParams :=
  { features := 0, buffer_bytes := 8192, period_bytes := 4096,
    channels := 2, format := VIRTIO_SND_PCM_FMT_S16,
    rate := VIRTIO_SND_PCM_RATE_44100 }

/-- An all-zero out-buffer view. -/
def outBufZero : OutBuf :=
  { code := 0, stream_id := 0, buffer_bytes := 0, period_bytes := 0,
    features := 0, channels := 0, format := 0, rate := 0,
    start_id := 0, count := 0, size := 0 }

/-- C1: a well-formed SET_PARAMS request for stream id 2 on a 2-stream
device — the id is one past the last valid index. -/
def c1_req : virtio_snd_pcm_set_params :=
  { hdr_stream_id := 2, buffer_bytes := 8192, period_bytes := 4096,
    features := 0, channels := 2, format := VIRTIO_SND_PCM_FMT_S16,
    rate := VIRTIO_SND_PCM_RATE_44100 }

/-- C2: a SET_PARAMS request for the valid stream id 0 whose `channels`
field is 0 and whose features/buffer/period differ from the stored
values. -/
def c2_req : virtio_snd_pcm_set_params :=
  { hdr_stream_id := 0, buffer_bytes := 1111, period_bytes := 2222,
    features := 7, channels := 0, format := VIRTIO_SND_PCM_FMT_S16,
    rate := VIRTIO_SND_PCM_RATE_44100 }

/-- C2: the status code of `c2_req` against the freshly realized 1-stream
device. -/
def c2_result_code : Option Nat :=
  match virtio_snd_pcm_set_params_impl (realizedState 0 1 0) c2_req with
  | .ok p => some p.1
  | .error _ => none

/-- C2: the stream-parameter table after `c2_req` (`none` on fault). -/
def c2_result_params : Option (List (Option VirtIOSoundPCMParams)) :=
  match virtio_snd_pcm_set_params_impl (realizedState 0 1 0) c2_req with
  | .ok p => p.2.pcm.pcm_params
  | .error _ => none

/-- C3: a well-formed RELEASE request for stream id 0. -/
def c3_cmd : virtio_snd_ctrl_command :=
  { elem := { elem_id := 11, out_len := 8, in_len := 8,
              out := { outBufZero with code := VIRTIO_SND_R_PCM_RELEASE,
                                       stream_id := 0 } },
    resp_code := VIRTIO_SND_S_OK }

/-- C3: two consecutive RELEASE requests for stream 0 on the realized
1-stream device, observing both status codes and whether the stream still
exists in between. -/
def c3_release_twice : M (Nat × Bool × Nat) := do
  let (r1, s1) ← virtio_snd_handle_pcm_release (realizedState 0 1 0) c3_cmd
  let stillOpt ← virtio_snd_pcm_get_stream s1 0
  let (r2, _s2) ← virtio_snd_handle_pcm_release s1 c3_cmd
  return (r1, stillOpt.isSome, r2)

/-- C4: a queued request whose out buffers hold only 2 bytes — fewer than
the 4-byte request header. -/
def c4_short_elem : VirtQueueElement :=
  { elem_id := 21, out_len := 2, in_len := 8, out := outBufZero }

/-- A well-formed JACK_INFO element (answered NOT_SUPP, state untouched). -/
def jack_info_elem (n : Nat) : VirtQueueElement :=
  { elem_id := n, out_len := 4, in_len := 8,
    out := { outBufZero with code := VIRTIO_SND_R_JACK_INFO } }

/-- C6: the device state after re-preparing stream 3 of the realized
5-stream device. -/
def c6_after : VirtIOSound :=
  match virtio_snd_pcm_prepare_impl (realizedState 0 5 0) 3 with
  | .ok p => p.2
  | .error _ => default

/-- C8: a well-formed PCM_INFO request with `start_id = 1`, `count = 1`,
the true record size, and an amply large reply buffer. -/
def c8_cmd : virtio_snd_ctrl_command :=
  { elem := { elem_id := 12, out_len := 16, in_len := 100,
              out := { outBufZero with code := VIRTIO_SND_R_PCM_INFO,
                                       start_id := 1, count := 1,
                                       size := SIZEOF_VIRTIO_SND_PCM_INFO } },
    resp_code := VIRTIO_SND_S_OK }

/-- C10: a well-formed START request for the given stream id. -/
def c10_cmd (stream_id : Nat) : virtio_snd_ctrl_command :=
  { elem := { elem_id := 41, out_len := 8, in_len := 8,
              out := { outBufZero with code := VIRTIO_SND_R_PCM_START,
                                       stream_id := stream_id } },
    resp_code := VIRTIO_SND_S_OK }

/-! ### Helper lemmas -/

theorem except_bind_eq_ok {ε α β : Type} {x : Except ε α}
    {f : α → Except ε β} {v : β} (h : x >>= f = .ok v) :
    ∃ a, x = .ok a ∧ f a = .ok v := by
  cases x with
  | error e => simp [Bind.bind, Except.bind] at h
  | ok a => exact ⟨a, rfl, by simpa [Bind.bind, Except.bind] using h⟩

/-- `process_cmd` never answers a request whose out buffers are shorter
than the request header. -/
theorem process_cmd_short_drops (s : VirtIOSound)
    (c : virtio_snd_ctrl_command)
    (h : c.elem.out_len < SIZEOF_VIRTIO_SND_HDR) :
    process_cmd s c = .ok (s, none) := by
  simp [process_cmd, h, pure, Except.pure]

/-- Whenever `process_cmd` completes without faulting on a request whose
out buffers cover the header, it pushes exactly one response carrying that
request's transport handle. -/
theorem process_cmd_answers (s s' : VirtIOSound)
    (c : virtio_snd_ctrl_command) (d : Option Delivery)
    (hlen : SIZEOF_VIRTIO_SND_HDR ≤ c.elem.out_len)
    (h : process_cmd s c = .ok (s', d)) :
    ∃ rd : Nat × List virtio_snd_pcm_info × Nat,
      d = some { elem_id := c.elem.elem_id, code := rd.1,
                 payload := rd.2.1, payload_bytes := rd.2.2 } := by
  rw [process_cmd] at h
  rw [if_neg (by omega)] at h
  cases hdis : virtio_snd_dispatch s c with
  | error e =>
    simp [Bind.bind, Except.bind, pure, Except.pure, hdis] at h
  | ok rdp =>
    simp [Bind.bind, Except.bind, pure, Except.pure, hdis] at h
    exact ⟨rdp.1, h.2.symm⟩

/-- The drain loop answers exactly the queued requests whose out buffers
cover the request header, in queue order, one response each. -/
theorem process_cmdq_loop_answers (cmds : List virtio_snd_ctrl_command) :
    ∀ (s s' : VirtIOSound) (ds : List Delivery),
    process_cmdq_loop s cmds = .ok (s', ds) →
    ds.map Delivery.elem_id
      = (cmds.filter fun c =>
          SIZEOF_VIRTIO_SND_HDR ≤ c.elem.out_len).map
          fun c => c.elem.elem_id := by
  induction cmds with
  | nil =>
    intro s s' ds h
    simp [process_cmdq_loop, pure, Except.pure] at h
    simp [h.2.symm]
  | cons c rest ih =>
    intro s s' ds h
    rw [process_cmdq_loop] at h
    cases hc : process_cmd s c with
    | error e =>
      simp [Bind.bind, Except.bind, pure, Except.pure, hc] at h
    | ok p1 =>
      cases hrest : process_cmdq_loop p1.1 rest with
      | error e =>
        simp [Bind.bind, Except.bind, pure, Except.pure, hc, hrest] at h
      | ok p2 =>
        simp [Bind.bind, Except.bind, pure, Except.pure, hc, hrest] at h
        by_cases hlen : SIZEOF_VIRTIO_SND_HDR ≤ c.elem.out_len
        · obtain ⟨rd, hd⟩ := process_cmd_answers s p1.1 c p1.2 hlen
            (by rw [hc])
          simp [List.filter, hlen, ← h.2, hd,
            ih p1.1 p2.1 p2.2 (by rw [hrest])]
        · have hdrop := process_cmd_short_drops s c (by omega)
          rw [hdrop] at hc
          have hc2 : p1 = (s, none) := by
            cases hc' : p1
            simp [hc'] at hc
            simp [hc]
          simp [List.filter, hlen, ← h.2, hc2,
            ih p1.1 p2.1 p2.2 (by rw [hrest])]

/-- `virtio_snd_handle_ctrl` delivers one response, in queue order, for
exactly the enqueued requests whose out buffers cover the request
header. -/
theorem handle_ctrl_delivery_ids
    (s s' : VirtIOSound) (elems : List VirtQueueElement)
    (ds : List Delivery)
    (hq : s.cmdq = []) (hp : s.processing_cmdq = false)
    (h : virtio_snd_handle_ctrl s elems = .ok (s', ds)) :
    ds.map Delivery.elem_id
      = (elems.filter fun e => SIZEOF_VIRTIO_SND_HDR ≤ e.out_len).map
          fun e => e.elem_id := by
  rw [virtio_snd_handle_ctrl, virtio_snd_process_cmdq] at h
  simp only [hq, hp, List.nil_append, Bool.false_eq_true, if_false,
    ite_false] at h
  cases hloop : process_cmdq_loop
      { s with
        cmdq := elems.map fun e =>
          { elem := e, resp_code := VIRTIO_SND_S_OK },
        processing_cmdq := true }
      (elems.map fun e => { elem := e, resp_code := VIRTIO_SND_S_OK }) with
  | error e =>
    simp [Bind.bind, Except.bind, pure, Except.pure, hloop] at h
  | ok p =>
    simp only [Bind.bind, Except.bind, pure, Except.pure, hloop] at h
    have hmap := process_cmdq_loop_answers
      (elems.map fun e => { elem := e, resp_code := VIRTIO_SND_S_OK })
      _ p.1 p.2 (by rw [hloop])
    have hds : ds = p.2 := by
      cases hp' : p
      simp [hp'] at h
      simp [h]
    rw [hds, hmap, List.filter_map, List.map_map]
    rfl

/-! ### C1 -/

/-- C1: the claim that SET_PARAMS on an out-of-range stream id always
returns BAD_MSG fails: the bounds guard uses `>` instead of `≥`, so on the
realized 2-stream device a request for stream id 2 passes the guard and
performs an out-of-bounds read of `pcm_params[2]` (a fault) instead of
returning BAD_MSG. -/
theorem set_params_oob_at_stream_count :
    virtio_snd_common_realize 0 2 0 = .ok (some (realizedState 0 2 0)) ∧
    (realizedState 0 2 0).snd_conf.streams = 2 ∧
    virtio_snd_pcm_set_params_impl (realizedState 0 2 0) c1_req
      = .error Fault.oobRead := by
  refine ⟨rfl, rfl, rfl⟩

/-! ### C3 -/

/-- C3: the claim that a successful RELEASE destroys the stream (so an
immediate second RELEASE returns BAD_MSG) fails: on the realized 1-stream
device the first RELEASE returns OK, the stream still exists afterwards,
and the second RELEASE also returns OK. -/
theorem release_twice_returns_ok :
    c3_release_twice
      = .ok (VIRTIO_SND_S_OK, true, VIRTIO_SND_S_OK) := by
  rfl

/-! ### C8 -/

/-- C8: the claim that a well-formed PCM_INFO with an amply large reply
buffer and all streams present returns OK and writes exactly `count`
records fails: with `start_id = 1`, `count = 1` on the realized 2-stream
device (both streams present) the handler zeroes
`pcm_info[start_id].padding` using the absolute stream index, an
out-of-bounds write past the 1-record scratch array. -/
theorem pcm_info_oob_padding_memset :
    virtio_snd_common_realize 0 2 0 = .ok (some (realizedState 0 2 0)) ∧
    Option.map (List.map Option.isSome) (realizedState 0 2 0).pcm.streams
      = some [true, true] ∧
    c8_cmd.elem.in_len ≥ SIZEOF_VIRTIO_SND_HDR
        + SIZEOF_VIRTIO_SND_PCM_INFO * c8_cmd.elem.out.count ∧
    virtio_snd_handle_pcm_info (realizedState 0 2 0) c8_cmd
      = .error Fault.oobWrite := by
  refine ⟨rfl, rfl, by decide, rfl⟩

/-! ### C9 -/

/-- C9: a guest config write followed by a config read returns exactly the
written `{jacks, streams, chmaps}` block: the write overwrites the whole
block verbatim with no validation, and the read returns the stored block
verbatim. -/
theorem config_write_read_roundtrip (s : VirtIOSound)
    (b : virtio_snd_config) :
    virtio_snd_get_config (virtio_snd_set_config s b) = b ∧
    (virtio_snd_set_config s b).snd_conf = b := by
  exact ⟨rfl, rfl⟩

/-! ### C2 -/

/-- C2, counterexample: on the realized 1-stream device, SET_PARAMS for the
valid stream id 0 with `channels = 0` does return NOT_SUPPORTED, but the
stored StreamParams are not left unchanged: features, buffer_bytes and
period_bytes are overwritten with the request's values. -/
theorem set_params_not_supp_overwrites_cex :
    c2_result_code = some VIRTIO_SND_S_NOT_SUPP ∧
    (realizedState 0 1 0).pcm.pcm_params
      = some [some defaultStoredParams] ∧
    c2_result_params
      = some [some { defaultStoredParams with
                     features := 7,
                     buffer_bytes := 1111, period_bytes := 2222 }] ∧
    c2_result_params ≠ (realizedState 0 1 0).pcm.pcm_params := by
  refine ⟨rfl, rfl, rfl, by decide⟩

/-- C2, amended: SET_PARAMS on a valid stream id with a stored parameter
entry and `channels = 0` or `channels > AUDIO_MAX_CHANNELS` returns
NOT_SUPPORTED and leaves the stored channels, format and rate unchanged,
but overwrites the stored features, buffer_bytes and period_bytes with the
request's values. -/
theorem set_params_bad_channels_still_updates
    (s : VirtIOSound) (tbl : List (Option VirtIOSoundPCMParams))
    (p : VirtIOSoundPCMParams) (req : virtio_snd_pcm_set_params)
    (htbl : s.pcm.pcm_params = some tbl)
    (hid : req.hdr_stream_id < s.snd_conf.streams)
    (hlen : req.hdr_stream_id < tbl.length)
    (hentry : tbl.get ⟨req.hdr_stream_id, hlen⟩ = some p)
    (hch : req.channels = 0 ∨ req.channels > AUDIO_MAX_CHANNELS) :
    virtio_snd_pcm_set_params_impl s req
      = .ok (VIRTIO_SND_S_NOT_SUPP,
          withParamsTbl s (tbl.set req.hdr_stream_id
            (some { p with features := req.features,
                           buffer_bytes := req.buffer_bytes,
                           period_bytes := req.period_bytes }))) := by
  have hElem : tbl[req.hdr_stream_id] = some p := by
    simpa [List.get_eq_getElem] using hentry
  have hget : listGetF tbl req.hdr_stream_id = .ok (some p) := by
    rw [listGetF, dif_pos hlen, hElem]
  have hcond : req.channels < 1 ∨ req.channels > AUDIO_MAX_CHANNELS := by
    rcases hch with h0 | hmax
    · exact Or.inl (by omega)
    · exact Or.inr hmax
  have hgt : ¬ (req.hdr_stream_id > s.snd_conf.streams) := by omega
  have hge : ¬ (req.hdr_stream_id ≥ s.snd_conf.streams) := by omega
  simp only [virtio_snd_pcm_set_params_impl, htbl, hget, Bind.bind,
    Except.bind, pure, Except.pure, hgt, hge, hlen, hcond, listSetF,
    if_true, if_false, ite_true, ite_false, eq_self_iff_true,
    iff_true, iff_false, not_false_iff]

/-- C2, witness for the amended theorem: the realized 1-stream device with
the concrete `channels = 0` request. -/
theorem set_params_bad_channels_still_updates_witness :
    virtio_snd_pcm_set_params_impl (realizedState 0 1 0) c2_req
      = .ok (VIRTIO_SND_S_NOT_SUPP,
          withParamsTbl (realizedState 0 1 0)
            ([some defaultStoredParams].set 0
              (some { defaultStoredParams with
                      features := c2_req.features,
                      buffer_bytes := c2_req.buffer_bytes,
                      period_bytes := c2_req.period_bytes }))) :=
  set_params_bad_channels_still_updates (realizedState 0 1 0)
    [some defaultStoredParams] defaultStoredParams c2_req
    (by rfl) (by decide) (by decide) (by rfl) (Or.inl (by rfl))

/-! ### C4 -/

/-- C4, counterexample: a queued request whose out buffers hold fewer
bytes than the fixed 4-byte request header is dropped without any answer —
draining a queue holding exactly that one request delivers no response at
all, where the claim requires exactly one. -/
theorem short_request_dropped_without_answer :
    c4_short_elem.out_len < SIZEOF_VIRTIO_SND_HDR ∧
    virtio_snd_handle_ctrl (realizedState 0 1 0) [c4_short_elem]
      = .ok (realizedState 0 1 0, []) := by
  exact ⟨by decide, rfl⟩

/-- C4, amended: every request popped from the pending command queue whose
out buffers cover the fixed request header is answered exactly once, in
arrival order; a request with fewer header bytes is logged and dropped
without any response. -/
theorem ctrl_answers_wellformed_requests_once
    (s s' : VirtIOSound) (elems : List VirtQueueElement)
    (ds : List Delivery)
    (hq : s.cmdq = []) (hp : s.processing_cmdq = false)
    (h : virtio_snd_handle_ctrl s elems = .ok (s', ds)) :
    ds.map Delivery.elem_id
      = (elems.filter fun e => SIZEOF_VIRTIO_SND_HDR ≤ e.out_len).map
          fun e => e.elem_id :=
  handle_ctrl_delivery_ids s s' elems ds hq hp h

/-- C4, witness for the amended theorem: on the realized 1-stream device,
queueing a short-header request followed by a well-formed JACK_INFO
request answers exactly the well-formed one. -/
theorem ctrl_answers_wellformed_requests_once_witness :
    ([({ elem_id := 31, code := VIRTIO_SND_S_NOT_SUPP, payload := [],
         payload_bytes := 0 } : Delivery)]).map Delivery.elem_id
      = (([c4_short_elem, jack_info_elem 31].filter fun e =>
          SIZEOF_VIRTIO_SND_HDR ≤ e.out_len).map fun e => e.elem_id) :=
  ctrl_answers_wellformed_requests_once (realizedState 0 1 0)
    (realizedState 0 1 0) [c4_short_elem, jack_info_elem 31]
    [{ elem_id := 31, code := VIRTIO_SND_S_NOT_SUPP, payload := [],
       payload_bytes := 0 }] (by rfl) (by rfl) (by rfl)

/-! ### C7 -/

/-- C7: three requests enqueued in order A, B, C (each with a complete
request header) are answered strictly in arrival order: the drain loop
delivers their responses carrying the handles of A, B, C in that order. -/
theorem ctrl_responses_in_arrival_order
    (s s' : VirtIOSound) (a b c : VirtQueueElement) (ds : List Delivery)
    (hq : s.cmdq = []) (hp : s.processing_cmdq = false)
    (ha : SIZEOF_VIRTIO_SND_HDR ≤ a.out_len)
    (hb : SIZEOF_VIRTIO_SND_HDR ≤ b.out_len)
    (hc : SIZEOF_VIRTIO_SND_HDR ≤ c.out_len)
    (h : virtio_snd_handle_ctrl s [a, b, c] = .ok (s', ds)) :
    ds.map Delivery.elem_id = [a.elem_id, b.elem_id, c.elem_id] := by
  rw [handle_ctrl_delivery_ids s s' [a, b, c] ds hq hp h]
  simp [List.filter, ha, hb, hc]

/-- C7, witness: three JACK_INFO requests with handles 31, 32, 33 on the
realized 1-stream device are answered in exactly that order. -/
theorem ctrl_responses_in_arrival_order_witness :
    ([({ elem_id := 31, code := VIRTIO_SND_S_NOT_SUPP, payload := [],
         payload_bytes := 0 } : Delivery),
      { elem_id := 32, code := VIRTIO_SND_S_NOT_SUPP, payload := [],
        payload_bytes := 0 },
      { elem_id := 33, code := VIRTIO_SND_S_NOT_SUPP, payload := [],
        payload_bytes := 0 }]).map Delivery.elem_id
      = [(jack_info_elem 31).elem_id, (jack_info_elem 32).elem_id,
         (jack_info_elem 33).elem_id] :=
  ctrl_responses_in_arrival_order (realizedState 0 1 0)
    (realizedState 0 1 0) (jack_info_elem 31) (jack_info_elem 32)
    (jack_info_elem 33)
    [{ elem_id := 31, code := VIRTIO_SND_S_NOT_SUPP, payload := [],
       payload_bytes := 0 },
     { elem_id := 32, code := VIRTIO_SND_S_NOT_SUPP, payload := [],
       payload_bytes := 0 },
     { elem_id := 33, code := VIRTIO_SND_S_NOT_SUPP, payload := [],
       payload_bytes := 0 }]
    (by rfl) (by rfl) (by decide) (by decide) (by decide) (by rfl)

/-! ### C10 -/

/-- C10: for a well-formed START or STOP request (both values of the
`start` flag), if a Stream exists for the id the handler returns OK with
the device state completely unchanged (so the Stream is never destroyed
and START, STOP, START in sequence all succeed), and if no Stream exists
for the id it returns BAD_MSG, again with the state unchanged. -/
theorem start_stop_status_and_state
    (s : VirtIOSound) (strs : List (Option VirtIOSoundPCMStream))
    (cmd : virtio_snd_ctrl_command) (b : Bool)
    (hstrs : s.pcm.streams = some strs)
    (hlen : s.snd_conf.streams ≤ strs.length)
    (hout : SIZEOF_VIRTIO_SND_PCM_HDR ≤ cmd.elem.out_len) :
    ((∃ hid : cmd.elem.out.stream_id < s.snd_conf.streams,
      ∃ st, strs.get ⟨cmd.elem.out.stream_id, by omega⟩ = some st) →
      virtio_snd_handle_pcm_start_stop s cmd b = .ok (VIRTIO_SND_S_OK, s))
    ∧ ((∀ hid : cmd.elem.out.stream_id < s.snd_conf.streams,
        strs.get ⟨cmd.elem.out.stream_id, by omega⟩ = none) →
      virtio_snd_handle_pcm_start_stop s cmd b
        = .ok (VIRTIO_SND_S_BAD_MSG, s)) := by
  constructor
  · rintro ⟨hid, st, hst⟩
    have hg : virtio_snd_pcm_get_stream s cmd.elem.out.stream_id
        = .ok (some st) := by
      rw [virtio_snd_pcm_get_stream, if_neg (by omega)]
      simp only [hstrs]
      rw [listGetF,
        dif_pos (by omega : cmd.elem.out.stream_id < strs.length)]
      have hst2 := hst
      rw [List.get_eq_getElem] at hst2
      exact congrArg Except.ok hst2
    rw [virtio_snd_handle_pcm_start_stop]
    rw [if_neg (by omega)]
    simp [hg, Bind.bind, Except.bind, pure, Except.pure]
  · intro hnone
    by_cases hid : cmd.elem.out.stream_id < s.snd_conf.streams
    · have hg : virtio_snd_pcm_get_stream s cmd.elem.out.stream_id
          = .ok none := by
        rw [virtio_snd_pcm_get_stream, if_neg (by omega)]
        simp only [hstrs]
        rw [listGetF,
          dif_pos (by omega : cmd.elem.out.stream_id < strs.length)]
        have hn2 := hnone hid
        rw [List.get_eq_getElem] at hn2
        exact congrArg Except.ok hn2
      rw [virtio_snd_handle_pcm_start_stop]
      rw [if_neg (by omega)]
      simp [hg, Bind.bind, Except.bind, pure, Except.pure]
    · have hg : virtio_snd_pcm_get_stream s cmd.elem.out.stream_id
          = .ok none := by
        rw [virtio_snd_pcm_get_stream, if_pos (by omega)]
        rfl
      rw [virtio_snd_handle_pcm_start_stop]
      rw [if_neg (by omega)]
      simp [hg, Bind.bind, Except.bind, pure, Except.pure]

/-- C10, witness: the realized 1-stream device with a START request for
stream 0 (which exists, so the left conjunct applies and the right one is
vacuously available). -/
theorem start_stop_status_and_state_witness :
    ((∃ hid : (c10_cmd 0).elem.out.stream_id
        < (realizedState 0 1 0).snd_conf.streams,
      ∃ st, ((realizedState 0 1 0).pcm.streams.getD []).get
          ⟨(c10_cmd 0).elem.out.stream_id, by decide⟩ = some st) →
      virtio_snd_handle_pcm_start_stop (realizedState 0 1 0) (c10_cmd 0)
          true
        = .ok (VIRTIO_SND_S_OK, realizedState 0 1 0))
    ∧ ((∀ _hid : (c10_cmd 0).elem.out.stream_id
        < (realizedState 0 1 0).snd_conf.streams,
      ((realizedState 0 1 0).pcm.streams.getD []).get
          ⟨(c10_cmd 0).elem.out.stream_id, by decide⟩ = none) →
      virtio_snd_handle_pcm_start_stop (realizedState 0 1 0) (c10_cmd 0)
          true
        = .ok (VIRTIO_SND_S_BAD_MSG, realizedState 0 1 0)) :=
  start_stop_status_and_state (realizedState 0 1 0)
    ((realizedState 0 1 0).pcm.streams.getD []) (c10_cmd 0) true
    (by rfl) (by decide) (by decide)

/-! ### C6 -/

/-- A Stream created by a successful `virtio_snd_pcm_prepare_impl` carries
the direction computed from the configured stream count by the
rounded-up-half rule. -/
theorem prepare_direction_general
    (s : VirtIOSound) (stream_id : Nat) (s' : VirtIOSound)
    (h : virtio_snd_pcm_prepare_impl s stream_id
      = .ok (VIRTIO_SND_S_OK, s')) :
    ∃ strs2, s'.pcm.streams = some strs2 ∧
      ∃ hlt : stream_id < strs2.length,
        ∃ st, strs2.get ⟨stream_id, hlt⟩ = some st ∧
          st.direction =
            if stream_id <
                s.snd_conf.streams / 2 + s.snd_conf.streams % 2 then
              VIRTIO_SND_D_OUTPUT
            else VIRTIO_SND_D_INPUT := by
  rw [virtio_snd_pcm_prepare_impl] at h
  split at h
  · simp [pure, Except.pure, VIRTIO_SND_S_BAD_MSG, VIRTIO_SND_S_OK] at h
  · simp [pure, Except.pure, VIRTIO_SND_S_BAD_MSG, VIRTIO_SND_S_OK] at h
  · rename_i strs tbl heq1 heq2
    cases hentry : listGetF tbl stream_id with
    | error e =>
      simp [Bind.bind, Except.bind, pure, Except.pure, hentry] at h
    | ok entry =>
      cases entry with
      | none =>
        simp [Bind.bind, Except.bind, pure, Except.pure, hentry,
          VIRTIO_SND_S_BAD_MSG, VIRTIO_SND_S_OK] at h
      | some e0 =>
        cases hpar : virtio_snd_pcm_get_params s stream_id with
        | error e =>
          simp [Bind.bind, Except.bind, pure, Except.pure, hentry,
            hpar] at h
        | ok paramsOpt =>
          cases paramsOpt with
          | none =>
            simp [Bind.bind, Except.bind, pure, Except.pure, hentry, hpar,
              VIRTIO_SND_S_BAD_MSG, VIRTIO_SND_S_OK] at h
          | some params =>
            cases has : virtio_snd_get_qemu_audsettings params with
            | error e =>
              simp [Bind.bind, Except.bind, pure, Except.pure, hentry,
                hpar, has] at h
            | ok asv =>
              cases hold : listGetF strs stream_id with
              | error e =>
                simp [Bind.bind, Except.bind, pure, Except.pure, hentry,
                  hpar, has, hold] at h
              | ok old =>
                cases hset : listSetF strs stream_id
                    (some
                      { id := stream_id,
                        direction :=
                          if stream_id <
                              s.snd_conf.streams / 2
                                + s.snd_conf.streams % 2 then
                            VIRTIO_SND_D_OUTPUT
                          else VIRTIO_SND_D_INPUT,
                        hda_fn_nid := VIRTIO_SOUND_HDA_FN_NID,
                        features := 0,
                        channels_min := 1,
                        channels_max := asv.nchannels,
                        formats := supported_formats,
                        rates := supported_rates,
                        buffer_bytes := params.buffer_bytes,
                        period_bytes := params.period_bytes,
                        positions0 := VIRTIO_SND_CHMAP_FL,
                        positions1 := VIRTIO_SND_CHMAP_FR,
                        as := asv }) with
                | error e =>
                  simp [Bind.bind, Except.bind, pure, Except.pure, hentry,
                    hpar, has, hold, hset] at h
                | ok strs2 =>
                  simp only [Bind.bind, Except.bind, pure, Except.pure,
                    hentry, hpar, has, hold, hset] at h
                  have hs' : s' = withStreamsTbl s strs2 := by
                    simp [pure, Except.pure] at h
                    exact h.symm
                  rw [listSetF] at hset
                  by_cases hlt : stream_id < strs.length
                  · rw [if_pos hlt] at hset
                    have hstrs2 := Except.ok.inj hset
                    refine ⟨strs2, by simp [hs', withStreamsTbl], ?_⟩
                    have hlen2 : stream_id < strs2.length := by
                      rw [← hstrs2]; simpa using hlt
                    refine ⟨hlen2,
                      { id := stream_id,
                        hda_fn_nid := VIRTIO_SOUND_HDA_FN_NID,
                        features := 0,
                        channels_min := 1,
                        channels_max := asv.nchannels,
                        formats := supported_formats,
                        rates := supported_rates,
                        direction := if stream_id < s.snd_conf.streams / 2
                            + s.snd_conf.streams % 2 then
                            VIRTIO_SND_D_OUTPUT
                          else VIRTIO_SND_D_INPUT,
                        buffer_bytes := params.buffer_bytes,
                        period_bytes := params.period_bytes,
                        positions0 := VIRTIO_SND_CHMAP_FL,
                        positions1 := VIRTIO_SND_CHMAP_FR,
                        as := asv }, ?_, rfl⟩
                    rw [List.get_eq_getElem]
                    simp only [← hstrs2]
                    exact List.getElem_set_self _
                  · rw [if_neg hlt] at hset
                    exact absurd hset (by simp)

/-- C6: for every device and every stream id on which PREPARE succeeds,
the created Stream's direction is OUTPUT iff the id is below
`streams / 2 + streams % 2` (the rounded-up half), INPUT otherwise; in
particular the realized 5-stream device has directions
OUTPUT,OUTPUT,OUTPUT,INPUT,INPUT and the realized 4-stream device has
OUTPUT,OUTPUT,INPUT,INPUT. -/
theorem prepare_direction_rule :
    (∀ (s : VirtIOSound) (stream_id : Nat) (s' : VirtIOSound),
      virtio_snd_pcm_prepare_impl s stream_id
        = .ok (VIRTIO_SND_S_OK, s') →
      ∃ strs2, s'.pcm.streams = some strs2 ∧
        ∃ hlt : stream_id < strs2.length,
          ∃ st, strs2.get ⟨stream_id, hlt⟩ = some st ∧
            st.direction =
              if stream_id <
                  s.snd_conf.streams / 2 + s.snd_conf.streams % 2 then
                VIRTIO_SND_D_OUTPUT
              else VIRTIO_SND_D_INPUT) ∧
    Option.map (fun l => l.map (Option.map VirtIOSoundPCMStream.direction))
        (realizedState 0 5 0).pcm.streams
      = some [some VIRTIO_SND_D_OUTPUT, some VIRTIO_SND_D_OUTPUT,
              some VIRTIO_SND_D_OUTPUT, some VIRTIO_SND_D_INPUT,
              some VIRTIO_SND_D_INPUT] ∧
    Option.map (fun l => l.map (Option.map VirtIOSoundPCMStream.direction))
        (realizedState 0 4 0).pcm.streams
      = some [some VIRTIO_SND_D_OUTPUT, some VIRTIO_SND_D_OUTPUT,
              some VIRTIO_SND_D_INPUT, some VIRTIO_SND_D_INPUT] :=
  ⟨prepare_direction_general, rfl, rfl⟩

/-- C6, witness: re-preparing stream 3 of the realized 5-stream device
yields a Stream whose direction follows the rule (here INPUT, since
`3 ≥ 5/2 + 5%2 = 3`). -/
theorem prepare_direction_rule_witness :
    ∃ strs2, c6_after.pcm.streams = some strs2 ∧
      ∃ hlt : 3 < strs2.length,
        ∃ st, strs2.get ⟨3, hlt⟩ = some st ∧
          st.direction =
            if 3 < (realizedState 0 5 0).snd_conf.streams / 2
                + (realizedState 0 5 0).snd_conf.streams % 2 then
              VIRTIO_SND_D_OUTPUT
            else VIRTIO_SND_D_INPUT :=
  prepare_direction_rule.1 (realizedState 0 5 0) 3 c6_after (by rfl)

/-! ### C5 -/

/-- C5: for every configuration with `jacks ≤ 8`, `streams ∈ [1,10]` and
`chmaps` within bounds, realization succeeds and afterwards every stream
id below the configured count has the fixed default StreamParams stored
(buffer 8192, period 4096, 2 channels, S16, 44100 Hz) and a live Stream
object (PREPARED); moreover the realize loop aborts realization whenever a
default SET_PARAMS, or the PREPARE after it, reports a status other than
OK. -/
theorem realize_defaults_and_prepared (jacks streams chmaps : Nat)
    (hj : jacks ≤ 8) (h1 : 1 ≤ streams) (h10 : streams ≤ 10)
    (hc : chmaps ≤ VIRTIO_SND_CHMAP_MAX_SIZE) :
    (∃ s : VirtIOSound,
      virtio_snd_common_realize jacks streams chmaps = .ok (some s) ∧
      s.pcm.pcm_params
        = some (List.replicate streams (some defaultStoredParams)) ∧
      ∃ strs, s.pcm.streams = some strs ∧ strs.length = streams ∧
        strs.map Option.isSome = List.replicate streams true) ∧
    (∀ (s s1 : VirtIOSound) (i fuel c : Nat),
      virtio_snd_pcm_set_params_impl s (default_params i) = .ok (c, s1) →
      c ≠ VIRTIO_SND_S_OK →
      virtio_snd_realize_loop s i (fuel + 1) = .ok none) ∧
    (∀ (s s1 s2 : VirtIOSound) (i fuel c2 : Nat),
      virtio_snd_pcm_set_params_impl s (default_params i)
        = .ok (VIRTIO_SND_S_OK, s1) →
      virtio_snd_pcm_prepare_impl s1 i = .ok (c2, s2) →
      c2 ≠ VIRTIO_SND_S_OK →
      virtio_snd_realize_loop s i (fuel + 1) = .ok none) := by
  refine ⟨?_, ?_, ?_⟩
  · have hj' : ¬ (jacks > 8) := by omega
    have hs' : ¬ (streams < 1 ∨ streams > 10) := by omega
    have hc' : ¬ (chmaps > VIRTIO_SND_CHMAP_MAX_SIZE) := by omega
    simp only [virtio_snd_common_realize, hj', hs', hc', if_false,
      ite_false, Bind.bind, Except.bind, pure, Except.pure]
    interval_cases streams <;>
      exact ⟨_, rfl, rfl, _, rfl, rfl, rfl⟩
  · intro s s1 i fuel c hset hcne
    rw [virtio_snd_realize_loop]
    simp [Bind.bind, Except.bind, pure, Except.pure, hset, hcne]
  · intro s s1 s2 i fuel c2 hset hprep hcne
    rw [virtio_snd_realize_loop]
    simp [Bind.bind, Except.bind, pure, Except.pure, hset, hprep, hcne]

/-- C5, witness: realization of a 3-stream device with jacks 0 and
chmaps 0. -/
theorem realize_defaults_and_prepared_witness :
    (∃ s : VirtIOSound,
      virtio_snd_common_realize 0 3 0 = .ok (some s) ∧
      s.pcm.pcm_params
        = some (List.replicate 3 (some defaultStoredParams)) ∧
      ∃ strs, s.pcm.streams = some strs ∧ strs.length = 3 ∧
        strs.map Option.isSome = List.replicate 3 true) ∧
    (∀ (s s1 : VirtIOSound) (i fuel c : Nat),
      virtio_snd_pcm_set_params_impl s (default_params i) = .ok (c, s1) →
      c ≠ VIRTIO_SND_S_OK →
      virtio_snd_realize_loop s i (fuel + 1) = .ok none) ∧
    (∀ (s s1 s2 : VirtIOSound) (i fuel c2 : Nat),
      virtio_snd_pcm_set_params_impl s (default_params i)
        = .ok (VIRTIO_SND_S_OK, s1) →
      virtio_snd_pcm_prepare_impl s1 i = .ok (c2, s2) →
      c2 ≠ VIRTIO_SND_S_OK →
      virtio_snd_realize_loop s i (fuel + 1) = .ok none) :=
  realize_defaults_and_prepared 0 3 0 (by decide) (by decide) (by decide)
    (by decide)
